import Mathlib

/-!
Shallow embedding of the two command-line scripts of this repository:

* `src/desktop-app/assets/resize_png.py` — a PNG resizer (`resize_png`)
* `src/desktop-app/assets/png_to_ico.py` — a PNG→ICO converter (`png_to_ico`)

Images are modelled by their pixel dimensions (the claims under study only
concern dimensions, paths, offsets and error propagation, never pixel
contents).  The filesystem is modelled as the list of paths that exist at
the start of the invocation.  Python exceptions that escape a function are
modelled with `Except.error`; a `try`/`except` block that absorbs them and
prints a diagnostic is modelled by a dedicated outcome constructor.
Python's unbounded `while` loop over collision counters is modelled with an
explicit fuel parameter; a successful invocation is one where the loop
found a free name within its fuel.
-/

/-- Python truthiness of an optional integer argument (`if width:`):
`None` and `0` are falsy, every other integer is truthy.  Dimensions are
pixel counts, hence `Nat`. -/
def truthy : Option Nat → Bool
  | none => false
  | some n => n != 0

/-- Python truthiness of an optional string (`if output_suffix:`):
`None` and the empty string are falsy. -/
def struthy : Option String → Bool
  | none => false
  | some s => s != ""

/-- The four resize modes accepted by `resize_png.py` (`argparse` restricts
`--mode` to exactly these choices). -/
inductive Mode
  | scale
  | crop
  | pad
  | stretch
deriving DecidableEq, Repr

/-- The string name of a mode, as interpolated into the size tag by
`f"_{mode}"`. -/
def Mode.name : Mode → String
  | .scale => "scale"
  | .crop => "crop"
  | .pad => "pad"
  | .stretch => "stretch"

/-- `os.path.join(dirname, basename)` for the dirnames produced by
`os.path.split` (never ending in a separator): empty dirname yields the
basename unchanged, otherwise the two parts are joined with `/`. -/
def pathJoin (dirname basename : String) : String :=
  if dirname = "" then basename else dirname ++ "/" ++ basename

/-- The `size_tag` built by `resize_png` (lines 34–48 of
`resize_png.py`): a dimension tag chosen by Python truthiness of
`width`/`height`, then `_{mode}` when the mode is not `scale`, then
`_{output_suffix}` when a truthy suffix was given. -/
def sizeTag (width height : Option Nat) (mode : Mode) (suffix : Option String) : String :=
  let dims :=
    if truthy width ∧ truthy height then
      "_" ++ Nat.repr (width.getD 0) ++ "x" ++ Nat.repr (height.getD 0)
    else if truthy width then
      "_w" ++ Nat.repr (width.getD 0)
    else if truthy height then
      "_h" ++ Nat.repr (height.getD 0)
    else ""
  let withMode := if mode ≠ Mode.scale then dims ++ "_" ++ mode.name else dims
  if struthy suffix then withMode ++ "_" ++ suffix.getD "" else withMode

/-- The collision-avoidance loop of `resize_png` (lines 53–56): while the
current candidate exists, the next candidate inserts `_{counter}` before
the extension and the counter increments.  The Python loop is unbounded; `fuel`
bounds the number of iterations of the model, `none` meaning the loop did
not finish within the fuel. -/
def collisionLoop (existing : List String) (dirname stem ext : String) :
    Nat → Nat → String → Option String
  | 0, _, _ => none
  | fuel + 1, counter, current =>
    if current ∈ existing then
      collisionLoop existing dirname stem ext fuel (counter + 1)
        (pathJoin dirname (stem ++ "_" ++ Nat.repr counter ++ ext))
    else
      some current

/-- The output path chosen by `resize_png`: the first candidate is
`dirname/{name}{size_tag}{ext}` and the loop starts with counter 1. -/
def outputPath (fuel : Nat) (existing : List String) (dirname name tag ext : String) :
    Option String :=
  collisionLoop existing dirname (name ++ tag) ext fuel 1
    (pathJoin dirname (name ++ tag ++ ext))

/-- The target-dimension computation of `resize_png` (lines 62–68).  When
the aspect ratio is kept, both dimensions are truthy and the mode is not
`stretch`, a uniform rational ratio `min(width/ow, height/oh)` is applied
and `int(...)` truncates (= floor on non-negative values); otherwise each
axis takes the truthy given value or falls back to the original dimension. -/
def targetDims (ow oh : Nat) (width height : Option Nat) (keepAspect : Bool) (mode : Mode) :
    Nat × Nat :=
  if keepAspect ∧ truthy width ∧ truthy height ∧ mode ≠ Mode.stretch then
    let ratio : ℚ := min ((width.getD 0 : ℚ) / (ow : ℚ)) ((height.getD 0 : ℚ) / (oh : ℚ))
    ((⌊(ow : ℚ) * ratio⌋).toNat, (⌊(oh : ℚ) * ratio⌋).toNat)
  else
    (if truthy width then width.getD 0 else ow,
     if truthy height then height.getD 0 else oh)

/-- Observable data of the `pad` branch (lines 79–90): the size the image
was scaled to, the paste offset on the canvas, and the background colour
the canvas was filled with. -/
structure PadInfo where
  scaledW : Nat
  scaledH : Nat
  offsetX : Nat
  offsetY : Nat
  background : List Int
deriving DecidableEq, Repr

/-- Observable result of a successful `resize_png` run: the path written
to, the dimensions of the written image, and the pad data when the mode
was `pad`. -/
structure ResizeResult where
  path : String
  outW : Nat
  outH : Nat
  padInfo : Option PadInfo
deriving DecidableEq, Repr

/-- The body of `resize_png` after `Image.open` succeeded (lines 30–104 of
`resize_png.py`), up to but excluding the catch-all `except`: builds the
size tag, resolves a non-colliding output path, validates that at least one
dimension was given (`width is None and height is None`), resolves the
target dimensions, and dispatches on the mode.  The `pad` branch rescales
with `min(target_w/ow, target_h/oh)`, creates a canvas of exactly the
target dimensions filled with `background`, and pastes at the centred
offset (integer halves).  Errors escape as `Except.error`. -/
def resizePngCore (fuel : Nat) (existing : List String) (dirname name ext : String)
    (ow oh : Nat) (suffix : Option String) (width height : Option Nat)
    (mode : Mode) (background : List Int) (keepAspect : Bool) :
    Except String ResizeResult :=
  let tag := sizeTag width height mode suffix
  match outputPath fuel existing dirname name tag ext with
  | none => Except.error "collision loop fuel exhausted"
  | some path =>
    if width = none ∧ height = none then
      Except.error "必须指定width或height至少一个参数"
    else
      let dims := targetDims ow oh width height keepAspect mode
      match mode with
      | Mode.scale => Except.ok ⟨path, dims.1, dims.2, none⟩
      | Mode.crop => Except.ok ⟨path, dims.1, dims.2, none⟩
      | Mode.pad =>
        let ratio : ℚ := min ((dims.1 : ℚ) / (ow : ℚ)) ((dims.2 : ℚ) / (oh : ℚ))
        let nw := (⌊(ow : ℚ) * ratio⌋).toNat
        let nh := (⌊(oh : ℚ) * ratio⌋).toNat
        Except.ok ⟨path, dims.1, dims.2,
          some ⟨nw, nh, (dims.1 - nw) / 2, (dims.2 - nh) / 2, background⟩⟩
      | Mode.stretch => Except.ok ⟨path, dims.1, dims.2, none⟩

/-- Outcome of a whole `resize_png` call: either the success prints and a
written file, or the catch-all `except Exception` printed `处理失败: ...`
and returned normally. -/
inductive RunOutcome
  | done (r : ResizeResult)
  | failurePrinted (msg : String)
deriving DecidableEq, Repr

/-- `resize_png` with its catch-all `try`/`except` (lines 24–104): every
error raised inside the body is absorbed into a printed diagnostic. -/
def resize_png (fuel : Nat) (existing : List String) (dirname name ext : String)
    (ow oh : Nat) (suffix : Option String) (width height : Option Nat)
    (mode : Mode) (background : List Int) (keepAspect : Bool) : RunOutcome :=
  match resizePngCore fuel existing dirname name ext ow oh suffix width height
      mode background keepAspect with
  | Except.ok r => RunOutcome.done r
  | Except.error e => RunOutcome.failurePrinted ("处理失败: " ++ e)

/-- Python's `str.split(sep)` for a one-character separator, on the
character list: splitting never drops pieces, so the empty input yields
`[[]]` (Python: `"".split(",") == [""]`). -/
def splitChar (sep : Char) : List Char → List (List Char)
  | [] => [[]]
  | c :: rest =>
    match splitChar sep rest with
    | [] => [[]]
    | grp :: more => if c = sep then [] :: grp :: more else (c :: grp) :: more

/-- Python's `str.split(sep)` for a one-character separator. -/
def pySplit (sep : Char) (s : String) : List String :=
  (splitChar sep s.data).map (fun cs => String.mk cs)

/-- The numeric value of a decimal digit character, `none` otherwise. -/
def digitVal? (c : Char) : Option Nat :=
  if '0' ≤ c ∧ c ≤ '9' then some (c.toNat - '0'.toNat) else none

/-- Accumulate decimal digits left to right; fail on a non-digit. -/
def natDigitsAux : List Char → Nat → Option Nat
  | [], acc => some acc
  | c :: rest, acc =>
    match digitVal? c with
    | some d => natDigitsAux rest (acc * 10 + d)
    | none => none

/-- A non-empty all-digit character list as a number. -/
def natOfDigits? : List Char → Option Nat
  | [] => none
  | c :: rest => natDigitsAux (c :: rest) 0

/-- Python's `int(str)` conversion for the decimal strings relevant here:
an optional leading minus sign followed by at least one digit; anything
else raises `ValueError`, modelled as `none`. -/
def pyInt? (s : String) : Option Int :=
  match s.data with
  | '-' :: rest => (natOfDigits? rest).map (fun n => -(n : Int))
  | cs => (natOfDigits? cs).map (fun n => (n : Int))

/-- The background-colour parsing of the resizer's `__main__` block
(lines 125–132): split on commas, convert each piece with `int`; on any
conversion failure print a diagnostic and fall back to `(255,255,255,0)`;
when exactly three components were given append alpha `255`; keep at most
four components.  The boolean records whether the fallback diagnostic was
printed. -/
def parseBackground (s : String) : List Int × Bool :=
  match (pySplit ',' s).mapM pyInt? with
  | some vs =>
    let vs := if vs.length = 3 then vs ++ [255] else vs
    (vs.take 4, false)
  | none => ([255, 255, 255, 0], true)

/-- The resizer's command line: parse the background colour (falling back
to the default on a parse failure) and then always call `resize_png`.
The CLI never passes `keep_aspect`, so it is always `true`. -/
def cliResize (fuel : Nat) (existing : List String) (dirname name ext : String)
    (ow oh : Nat) (suffix : Option String) (width height : Option Nat)
    (mode : Mode) (backgroundArg : String) : RunOutcome :=
  resize_png fuel existing dirname name ext ow oh suffix width height mode
    (parseBackground backgroundArg).1 true

/-- The default size list hard-coded in `png_to_ico` (line 8 of
`png_to_ico.py`), used when the function argument `sizes` is `None`. -/
def defaultSizes : List (Int × Int) :=
  [(16, 16), (32, 32), (48, 48), (64, 64), (128, 128), (256, 256), (512, 512)]

/-- `os.path.splitext`: the part of the path before the last dot of the
final component, and the extension including that dot (empty when there is
no dot). -/
def splitExt (p : String) : String × String :=
  let parts := pySplit '.' p
  if parts.length ≤ 1 then (p, "")
  else (String.intercalate "." parts.dropLast, "." ++ parts.getLastD "")

/-- Observable result of a successful `png_to_ico` run: the path of the
ICO file and the size list encoded into it, in order. -/
structure IcoResult where
  outputPath : String
  sizes : List (Int × Int)
deriving DecidableEq, Repr

/-- Outcome of `png_to_ico`: either the success prints, or the `except`
block printed `Error: ...` and the function returned normally.  Both
constructors are normal returns — nothing escapes the function. -/
inductive IcoOutcome
  | success (r : IcoResult)
  | errorPrinted (msg : String)
deriving DecidableEq, Repr

/-- `png_to_ico` (lines 5–39 of `png_to_ico.py`): default the sizes to
`defaultSizes` when `None`, default the output path to the input with its
extension replaced by `.ico`, then inside `try`: open the input (fails
when unreadable), resize each entry, and save (`ico_images[0]` raises on
an empty size list; the encoder can fail).  Every exception in the `try`
body is absorbed into a printed `Error: ...` message.  The fallible
interactions with the outside world — whether the input decodes and
whether the encoder succeeds — are passed in as the booleans
`inputReadable` and `saveOk`. -/
def png_to_ico (inputReadable saveOk : Bool) (input : String)
    (output : Option String) (sizes : Option (List (Int × Int))) : IcoOutcome :=
  let sizeList := sizes.getD defaultSizes
  let outPath := output.getD ((splitExt input).1 ++ ".ico")
  if !inputReadable then
    IcoOutcome.errorPrinted "Error: cannot identify image file"
  else if sizeList = [] then
    IcoOutcome.errorPrinted "Error: list index out of range"
  else if !saveOk then
    IcoOutcome.errorPrinted "Error: encode failure"
  else
    IcoOutcome.success ⟨outPath, sizeList⟩

/-- The size-string parsing of the converter's `__main__` block (line 47):
split on commas and convert each piece with `int`, making a square pair of
each.  This happens outside every `try` block, so a conversion failure is
an uncaught `ValueError`, modelled as `none`. -/
def parseSizes (s : String) : Option (List (Int × Int)) :=
  (pySplit ',' s).mapM (fun t => (pyInt? t).map (fun n => (n, n)))

/-- The default of the converter's `--sizes` option (line 44 of
`png_to_ico.py`). -/
def cliDefaultSizesArg : String := "16,32,48,64,128,256"

/-- The converter's command line: parse the sizes string (uncaught
`ValueError` on a bad entry, modelled as `Except.error`), then call
`png_to_ico`, which itself absorbs all of its failures. -/
def icoCliMain (inputReadable saveOk : Bool) (input : String)
    (output : Option String) (sizesArg : String) : Except String IcoOutcome :=
  match parseSizes sizesArg with
  | none => Except.error "ValueError: invalid literal for int() with base 10"
  | some sizes => Except.ok (png_to_ico inputReadable saveOk input output (some sizes))

/-- The collision loop only ever returns a path that does not exist. -/
lemma collisionLoop_not_mem (existing : List String) (dirname stem ext : String) :
    ∀ fuel counter current out,
      collisionLoop existing dirname stem ext fuel counter current = some out →
      out ∉ existing := by
  intro fuel
  induction fuel with
  | zero =>
    intro counter current out h
    simp [collisionLoop] at h
  | succ n ih =>
    intro counter current out h
    simp only [collisionLoop] at h
    by_cases hc : current ∈ existing
    · rw [if_pos hc] at h
      exact ih _ _ _ h
    · rw [if_neg hc] at h
      injection h with h
      subst h
      exact hc

/-- A successful collision loop returns either its starting candidate when
that one is free, or the counter-tagged candidate with the least counter
that is free, every earlier counter-tagged candidate existing. -/
lemma collisionLoop_least (existing : List String) (dirname stem ext : String) :
    ∀ fuel counter current out,
      collisionLoop existing dirname stem ext fuel counter current = some out →
      (current ∉ existing ∧ out = current) ∨
      (current ∈ existing ∧ ∃ k, counter ≤ k ∧
        out = pathJoin dirname (stem ++ "_" ++ Nat.repr k ++ ext) ∧
        pathJoin dirname (stem ++ "_" ++ Nat.repr k ++ ext) ∉ existing ∧
        ∀ j, counter ≤ j → j < k →
          pathJoin dirname (stem ++ "_" ++ Nat.repr j ++ ext) ∈ existing) := by
  intro fuel
  induction fuel with
  | zero =>
    intro counter current out h
    simp [collisionLoop] at h
  | succ n ih =>
    intro counter current out h
    simp only [collisionLoop] at h
    by_cases hc : current ∈ existing
    · rw [if_pos hc] at h
      refine Or.inr ⟨hc, ?_⟩
      rcases ih _ _ _ h with ⟨hfree, hout⟩ | ⟨hmem, k, hk, hout, hfree, hall⟩
      · exact ⟨counter, le_refl _, hout, hfree, fun j hj hj2 => absurd hj2 (by omega)⟩
      · refine ⟨k, by omega, hout, hfree, fun j hj hjk => ?_⟩
        by_cases hj1 : counter + 1 ≤ j
        · exact hall j hj1 hjk
        · have : j = counter := by omega
          subst this
          exact hmem
    · rw [if_neg hc] at h
      injection h with h
      exact Or.inl ⟨hc, h.symm⟩

/-- A successful `resizePngCore` run wrote to exactly the path the
collision-avoidance procedure selected. -/
lemma resizePngCore_path_eq
    (fuel : Nat) (existing : List String) (dirname name ext : String)
    (ow oh : Nat) (suffix : Option String) (width height : Option Nat)
    (mode : Mode) (bg : List Int) (keep : Bool) (r : ResizeResult)
    (h : resizePngCore fuel existing dirname name ext ow oh suffix width height
        mode bg keep = Except.ok r) :
    outputPath fuel existing dirname name (sizeTag width height mode suffix) ext
      = some r.path := by
  simp only [resizePngCore] at h
  split at h
  · simp at h
  · rename_i p houtp
    rw [houtp]
    split at h
    · simp at h
    · split at h <;> (injection h with h; subst h; rfl)

/-- C1: the claim states that with mode `pad`, width 500, height 500,
background `(0,0,0,0)` and keep-aspect true, a 1000×400 image is scaled to
500×200 and pasted at offset (0,150) on a canvas of exactly 500×500, so the
output is 500×500.  Evaluating the code at exactly this input shows
otherwise: the keep-aspect branch first shrinks the target dimensions to
(500,200), and the `pad` branch then builds its canvas from those already
shrunk dimensions, so the output image is 500×200 with the scaled image
pasted at offset (0,0) — contradicting the claim and the script's own
usage comment, which presents `pad` as filling to the requested size. -/
theorem C1_pad_collapses_canvas_at_failing_input :
    resizePngCore 1 [] "" "img" ".png" 1000 400 none (some 500) (some 500)
        Mode.pad [0, 0, 0, 0] true
      = Except.ok ⟨"img_500x500_pad.png", 500, 200, some ⟨500, 200, 0, 0, [0, 0, 0, 0]⟩⟩ := by
  have tpad : targetDims 1000 400 (some 500) (some 500) true Mode.pad = (500, 200) := by
    simp [targetDims, truthy]
    norm_num
    simp
  have hout : outputPath 1 [] "" "img" (sizeTag (some 500) (some 500) Mode.pad none) ".png"
      = some "img_500x500_pad.png" := rfl
  simp only [resizePngCore, hout, tpad]
  norm_num
  simp

/-- C2: the claim states that with mode `scale`, width 300 and height
omitted, a 600×400 image resolves to target (300, 200), the height being
derived from the original aspect ratio.  Evaluating the code at exactly
this input shows otherwise: the omitted height falls back to the original
height, so the target is (300, 400) and the image is written distorted at
300×400 — contradicting the claim and the script's own usage comment,
which says the height is computed automatically. -/
theorem C2_scale_width_only_ignores_aspect_at_failing_input :
    targetDims 600 400 (some 300) none true Mode.scale = (300, 400)
    ∧ resizePngCore 1 [] "" "img" ".png" 600 400 none (some 300) none
        Mode.scale [255, 255, 255, 0] true
      = Except.ok ⟨"img_w300.png", 300, 400, none⟩ :=
  ⟨rfl, rfl⟩

/-- C4: when both dimensions are given (truthy), keep-aspect is true and
the mode is not `stretch`, the resolved target dimensions are the floors
of the original dimensions scaled by `min(width/ow, height/oh)`; in every
other case each axis is the truthy given value or, failing that, the
original dimension of that axis. -/
theorem C4_target_dimension_resolution (ow oh : Nat) (width height : Option Nat)
    (keep : Bool) (mode : Mode) :
    (keep = true → truthy width = true → truthy height = true → mode ≠ Mode.stretch →
      targetDims ow oh width height keep mode
        = ((⌊(ow : ℚ) * min ((width.getD 0 : ℚ) / (ow : ℚ)) ((height.getD 0 : ℚ) / (oh : ℚ))⌋).toNat,
           (⌊(oh : ℚ) * min ((width.getD 0 : ℚ) / (ow : ℚ)) ((height.getD 0 : ℚ) / (oh : ℚ))⌋).toNat))
    ∧ (¬(keep = true ∧ truthy width = true ∧ truthy height = true ∧ mode ≠ Mode.stretch) →
      targetDims ow oh width height keep mode
        = (if truthy width then width.getD 0 else ow,
           if truthy height then height.getD 0 else oh)) := by
  constructor
  · intro hk hw hh hm
    rw [targetDims, if_pos ⟨hk, hw, hh, hm⟩]
  · intro hne
    rw [targetDims, if_neg hne]

/-- Witness for C4: the keep-aspect branch at a 1000×400 image with both
dimensions 500 in mode `pad`, and the fallback branch at a 600×400 image
with only the width given in mode `scale`. -/
theorem C4_witness :
    targetDims 1000 400 (some 500) (some 500) true Mode.pad
      = ((⌊(1000 : ℚ) * min ((500 : ℚ) / (1000 : ℚ)) ((500 : ℚ) / (400 : ℚ))⌋).toNat,
         (⌊(400 : ℚ) * min ((500 : ℚ) / (1000 : ℚ)) ((500 : ℚ) / (400 : ℚ))⌋).toNat)
    ∧ targetDims 600 400 (some 300) none true Mode.scale = (300, 400) := by
  constructor
  · have h := (C4_target_dimension_resolution 1000 400 (some 500) (some 500) true Mode.pad).1
      rfl rfl rfl (by decide)
    simpa using h
  · have h := (C4_target_dimension_resolution 600 400 (some 300) none true Mode.scale).2
      (by decide)
    simpa using h

/-- C10: with width 0 and height omitted, the missing-dimensions
validation does not fire (it tests `is None`, and 0 is not `None`), the
size tag is empty because 0 is falsy, the resolved target is the original
dimensions, and a successful run writes an image at the original size. -/
theorem C10_zero_width_treated_as_absent (ow oh : Nat) :
    sizeTag (some 0) none Mode.scale none = ""
    ∧ targetDims ow oh (some 0) none true Mode.scale = (ow, oh)
    ∧ (∀ fuel existing dirname name ext suffix bg,
        resizePngCore fuel existing dirname name ext ow oh suffix (some 0) none
            Mode.scale bg true
          ≠ Except.error "必须指定width或height至少一个参数")
    ∧ (∀ fuel existing dirname name ext suffix bg r,
        resizePngCore fuel existing dirname name ext ow oh suffix (some 0) none
            Mode.scale bg true = Except.ok r →
        r.outW = ow ∧ r.outH = oh) := by
  refine ⟨rfl, rfl, ?_, ?_⟩
  · intro fuel existing dirname name ext suffix bg h
    simp only [resizePngCore] at h
    split at h
    · simp at h
    · rw [if_neg (by simp)] at h
      simp at h
  · intro fuel existing dirname name ext suffix bg r h
    simp only [resizePngCore] at h
    split at h
    · simp at h
    · rw [if_neg (by simp)] at h
      injection h with h
      subst h
      exact ⟨rfl, rfl⟩

/-- Witness for C10: a 600×400 image resized with width 0 and no height
succeeds and keeps the original 600×400 size. -/
theorem C10_witness :
    (⟨"img.png", 600, 400, none⟩ : ResizeResult).outW = 600
    ∧ (⟨"img.png", 600, 400, none⟩ : ResizeResult).outH = 400 :=
  (C10_zero_width_treated_as_absent 600 400).2.2.2 1 [] "" "img" ".png" none
    [255, 255, 255, 0] ⟨"img.png", 600, 400, none⟩ rfl

/-- C5: for every resizer invocation, the written path is
`dirname/{name}{tag}{ext}` with the tag built by `sizeTag` (dimension tag,
then `_{mode}` when the mode is not `scale`, then `_{suffix}` for a given
suffix); while that candidate exists, `_{n}` with the least n ≥ 1 making
the candidate free is inserted immediately before the extension; in
particular with existing files `a.png` and `a_w300.png`, input `a.png`
with width 300 produces `a_w300_1.png`. -/
theorem C5_output_path_derivation :
    (∀ fuel existing dirname name ext ow oh suffix width height mode bg keep r,
      resizePngCore fuel existing dirname name ext ow oh suffix width height mode bg keep
          = Except.ok r →
      outputPath fuel existing dirname name (sizeTag width height mode suffix) ext
          = some r.path)
    ∧ (∀ fuel existing dirname name tag ext out,
        outputPath fuel existing dirname name tag ext = some out →
        (pathJoin dirname (name ++ tag ++ ext) ∉ existing ∧
          out = pathJoin dirname (name ++ tag ++ ext)) ∨
        (pathJoin dirname (name ++ tag ++ ext) ∈ existing ∧ ∃ k, 1 ≤ k ∧
          out = pathJoin dirname (name ++ tag ++ "_" ++ Nat.repr k ++ ext) ∧
          pathJoin dirname (name ++ tag ++ "_" ++ Nat.repr k ++ ext) ∉ existing ∧
          ∀ j, 1 ≤ j → j < k →
            pathJoin dirname (name ++ tag ++ "_" ++ Nat.repr j ++ ext) ∈ existing))
    ∧ resize_png 2 ["a.png", "a_w300.png"] "" "a" ".png" 600 400 none (some 300) none
        Mode.scale [255, 255, 255, 0] true
        = RunOutcome.done ⟨"a_w300_1.png", 300, 400, none⟩ := by
  refine ⟨?_, ?_, rfl⟩
  · intro fuel existing dirname name ext ow oh suffix width height mode bg keep r h
    exact resizePngCore_path_eq fuel existing dirname name ext ow oh suffix width height
      mode bg keep r h
  · intro fuel existing dirname name tag ext out h
    exact collisionLoop_least existing dirname (name ++ tag) ext fuel 1
      (pathJoin dirname (name ++ tag ++ ext)) out h

/-- Witness for C5: at the claim's own collision scenario (existing files
`a.png` and `a_w300.png`, input `a.png`, width 300) the chosen name
`a_w300_1.png` is indeed a fresh one. -/
theorem C5_witness : ("a_w300_1.png" : String) ∉ (["a.png", "a_w300.png"] : List String) := by
  rcases C5_output_path_derivation.2.1 2 ["a.png", "a_w300.png"] "" "a" "_w300" ".png"
      "a_w300_1.png" rfl with ⟨h1, _⟩ | ⟨_, k, _, hout, hfree, _⟩
  · exact absurd (by decide : pathJoin "" ("a" ++ "_w300" ++ ".png")
        ∈ (["a.png", "a_w300.png"] : List String)) h1
  · rw [hout]
    exact hfree

/-- C6: a successful resizer run never writes to a path that already
existed — in particular the input file itself is never overwritten. -/
theorem C6_never_overwrites_existing_file
    (fuel : Nat) (existing : List String) (dirname name ext : String)
    (ow oh : Nat) (suffix : Option String) (width height : Option Nat)
    (mode : Mode) (bg : List Int) (keep : Bool) (r : ResizeResult)
    (h : resizePngCore fuel existing dirname name ext ow oh suffix width height
        mode bg keep = Except.ok r) :
    r.path ∉ existing ∧
      (pathJoin dirname (name ++ ext) ∈ existing → r.path ≠ pathJoin dirname (name ++ ext)) := by
  have hout := resizePngCore_path_eq fuel existing dirname name ext ow oh suffix width height
    mode bg keep r h
  have hnm := collisionLoop_not_mem existing dirname
    (name ++ sizeTag width height mode suffix) ext fuel 1
    (pathJoin dirname (name ++ sizeTag width height mode suffix ++ ext)) r.path hout
  exact ⟨hnm, fun hin heq => hnm (heq ▸ hin)⟩

/-- Witness for C6: resizing `a.png` (600×400, width 300) with `a.png`
present on disk writes to `a_w300.png`, which did not exist and differs
from the input path. -/
theorem C6_witness :
    ("a_w300.png" : String) ∉ (["a.png"] : List String)
    ∧ ("a_w300.png" : String) ≠ "a.png" := by
  have h := C6_never_overwrites_existing_file 1 ["a.png"] "" "a" ".png" 600 400 none
    (some 300) none Mode.scale [255, 255, 255, 0] true ⟨"a_w300.png", 300, 400, none⟩ rfl
  exact ⟨h.1, h.2 (by decide)⟩

/-- C7: when both width and height are omitted, the resizer raises the
missing-dimension validation error: it never succeeds, and whenever the
collision loop resolves (as it always does in a real run) the catch-all
handler reports the absorbed failure, so no output file is created. -/
theorem C7_missing_dimensions_fatal
    (fuel : Nat) (existing : List String) (dirname name ext : String)
    (ow oh : Nat) (suffix : Option String) (mode : Mode) (bg : List Int) (keep : Bool) :
    (∀ r, resizePngCore fuel existing dirname name ext ow oh suffix none none mode bg keep
        ≠ Except.ok r)
    ∧ (outputPath fuel existing dirname name (sizeTag none none mode suffix) ext ≠ none →
        resize_png fuel existing dirname name ext ow oh suffix none none mode bg keep
          = RunOutcome.failurePrinted "处理失败: 必须指定width或height至少一个参数") := by
  constructor
  · intro r h
    simp only [resizePngCore] at h
    split at h
    · simp at h
    · rw [if_pos (by simp)] at h
      simp at h
  · intro hloop
    cases houtp : outputPath fuel existing dirname name (sizeTag none none mode suffix) ext with
    | none => exact absurd houtp hloop
    | some p =>
      simp only [resize_png, resizePngCore, houtp]
      rw [if_pos (by simp)]
      rfl

/-- Witness for C7: with no file collisions, omitting both dimensions on a
600×400 image yields exactly the absorbed validation diagnostic. -/
theorem C7_witness :
    resize_png 1 [] "" "img" ".png" 600 400 none none none Mode.scale
        [255, 255, 255, 0] true
      = RunOutcome.failurePrinted "处理失败: 必须指定width或height至少一个参数" :=
  (C7_missing_dimensions_fatal 1 [] "" "img" ".png" 600 400 none Mode.scale
    [255, 255, 255, 0] true).2 (by decide)

/-- C3 counterexample: the claim says every failure of the icon converter,
including an invalid entry in the sizes string, is absorbed into a printed
message.  At the concrete invocation with sizes string `"abc"`, the size
parsing — which happens outside every `try` block — raises an uncaught
`ValueError` that propagates to the caller, refuting the claim. -/
theorem C3_counterexample :
    icoCliMain true true "icon.png" none "abc"
      = Except.error "ValueError: invalid literal for int() with base 10" := rfl

/-- C3 amended: failures inside `png_to_ico` (unreadable input, encode
failure) are fully absorbed into a printed diagnostic and the tool
terminates normally, but an invalid entry in the comma-separated sizes
string raises before `png_to_ico` is even called: a converter invocation
terminates normally exactly when its sizes string parses. -/
theorem C3_amended_absorption (inputReadable saveOk : Bool) (input : String)
    (output : Option String) (sizesArg : String) :
    (icoCliMain inputReadable saveOk input output sizesArg).isOk
      = (parseSizes sizesArg).isSome := by
  simp only [icoCliMain]
  cases parseSizes sizesArg with
  | none => rfl
  | some sizes => rfl

/-- C8: an unparsable background-colour argument such as `"abc"` makes the
resizer print a diagnostic, substitute the default `(255,255,255,0)` and
proceed with the resize exactly as if that default had been passed; and
when exactly three components are given the alpha channel defaults to
255. -/
theorem C8_background_fallback :
    parseBackground "abc" = ([255, 255, 255, 0], true)
    ∧ (∀ fuel existing dirname name ext ow oh suffix width height mode,
        cliResize fuel existing dirname name ext ow oh suffix width height mode "abc"
          = resize_png fuel existing dirname name ext ow oh suffix width height mode
              [255, 255, 255, 0] true)
    ∧ (∀ s vs, (pySplit ',' s).mapM pyInt? = some vs → vs.length = 3 →
        parseBackground s = (vs ++ [255], false)) := by
  refine ⟨rfl, fun _ _ _ _ _ _ _ _ _ _ _ => rfl, ?_⟩
  intro s vs hparse hlen
  simp only [parseBackground, hparse, if_pos hlen]
  have h4 : (vs ++ [255]).length ≤ 4 := by simp [hlen]
  rw [List.take_of_length_le h4]

/-- Witness for C8: the three-component string `"1,2,3"` parses to the
colour `(1,2,3)` with the alpha defaulted to 255 and no fallback. -/
theorem C8_witness : parseBackground "1,2,3" = ([1, 2, 3, 255], false) :=
  C8_background_fallback.2.2 "1,2,3" [1, 2, 3] rfl rfl

/-- C9 counterexample: the claim says an invocation of the icon converter
without an explicit sizes option uses the seven square sizes up to
512×512.  Running the command line with its actual default sizes string
produces the six sizes 16–256, and 512×512 is not among them, refuting
the claim. -/
theorem C9_counterexample :
    icoCliMain true true "a.png" none cliDefaultSizesArg
      = Except.ok (IcoOutcome.success ⟨"a.ico",
          [(16, 16), (32, 32), (48, 48), (64, 64), (128, 128), (256, 256)]⟩)
    ∧ ((512, 512) : Int × Int)
        ∉ [((16 : Int), (16 : Int)), (32, 32), (48, 48), (64, 64), (128, 128), (256, 256)] :=
  ⟨rfl, by decide⟩

/-- C9 amended: the command line's default sizes string yields the six
square sizes 16, 32, 48, 64, 128, 256; the seven-size list that includes
512×512 is only the function-level default of `png_to_ico`, used when it
is called with `sizes=None` — which the command line never does. -/
theorem C9_amended_default_sizes :
    parseSizes cliDefaultSizesArg
        = some [(16, 16), (32, 32), (48, 48), (64, 64), (128, 128), (256, 256)]
    ∧ png_to_ico true true "a.png" none none = IcoOutcome.success ⟨"a.ico", defaultSizes⟩
    ∧ defaultSizes
        = [(16, 16), (32, 32), (48, 48), (64, 64), (128, 128), (256, 256), (512, 512)]
    ∧ ((512, 512) : Int × Int) ∈ defaultSizes :=
  ⟨rfl, rfl, rfl, by decide⟩
